import Mathlib

/-!
Verification of the AI-Health-Risk-Predictor pipeline.

Shallow embedding of the Python sources:
  * `src/risk_score.py`   — rule-based scoring engine (`_score_with_bands`,
    `compute_risk_score`, `categorize_risk_level`);
  * `src/ingest_apple.py` — Apple Health daily aggregation (`build_daily_metrics`);
  * `src/ingest_fitbit.py` — Fitbit daily aggregation (`build_daily_metrics`).

Numeric values are modelled as rationals (`ℚ`); a pandas `NaN` / missing cell
is `Option.none`.  Calendar days are abstracted to `Nat` identifiers; sample
timestamps are rationals counting seconds.
-/

namespace HealthRisk

/-! ## Scoring engine (`src/risk_score.py`) -/

/-- A row of the `daily_metrics` table as consumed by `compute_risk_score`:
each scored column is either a numeric value or missing (`pd.isna`). -/
structure HealthRow where
  steps : Option ℚ
  sleep_minutes : Option ℚ
  resting_hr : Option ℚ
  active_minutes : Option ℚ
  hrv_sdnn : Option ℚ
  vo2max : Option ℚ
  walking_hr_avg : Option ℚ

/-- `_score_with_bands(value, weight, bands, missing_penalty)`: a missing value
yields `weight * missing_penalty`; otherwise the first matching band in order
determines the fraction of `weight`; if no band matches, the fallback fraction
is `0.5`. -/
def score_with_bands (value : Option ℚ) (weight : ℚ)
    (bands : List (ℚ × (ℚ → Bool))) (missing_penalty : ℚ) : ℚ :=
  match value with
  | none => weight * missing_penalty
  | some v =>
    match bands.find? (fun b => b.2 v) with
    | some b => weight * b.1
    | none => weight * (1 / 2)

/-- Ordered bands for `steps` (weight 20). -/
def stepsBands : List (ℚ × (ℚ → Bool)) :=
  [(1, fun v => decide (v < 3000)),
   (7 / 10, fun v => decide (v < 6000)),
   (2 / 5, fun v => decide (v < 9000)),
   (1 / 5, fun _ => true)]

/-- Ordered bands for `sleep_minutes` (weight 20). -/
def sleepBands : List (ℚ × (ℚ → Bool)) :=
  [(1, fun v => decide (v < 360)),
   (7 / 10, fun v => decide (v < 420)),
   (2 / 5, fun v => decide (v < 540)),
   (1 / 5, fun _ => true)]

/-- Ordered bands for `resting_hr` (weight 20). -/
def restingBands : List (ℚ × (ℚ → Bool)) :=
  [(1, fun v => decide (v > 90)),
   (7 / 10, fun v => decide (v > 80)),
   (2 / 5, fun v => decide (v > 70)),
   (1 / 5, fun _ => true)]

/-- Ordered bands for `active_minutes` (weight 10). -/
def activeBands : List (ℚ × (ℚ → Bool)) :=
  [(4 / 5, fun v => decide (v < 20)),
   (3 / 5, fun v => decide (v < 40)),
   (2 / 5, fun v => decide (v < 60)),
   (1 / 5, fun _ => true)]

/-- Ordered bands for `hrv_sdnn` (weight 15). -/
def hrvBands : List (ℚ × (ℚ → Bool)) :=
  [(1, fun v => decide (v < 20)),
   (7 / 10, fun v => decide (v < 40)),
   (1 / 2, fun v => decide (v < 60)),
   (3 / 10, fun _ => true)]

/-- Ordered bands for `vo2max` (weight 10). -/
def vo2Bands : List (ℚ × (ℚ → Bool)) :=
  [(1, fun v => decide (v < 30)),
   (7 / 10, fun v => decide (v < 35)),
   (1 / 2, fun v => decide (v < 45)),
   (3 / 10, fun _ => true)]

/-- Ordered bands for `walking_hr_avg` (weight 5). -/
def walkingBands : List (ℚ × (ℚ → Bool)) :=
  [(1, fun v => decide (v > 120)),
   (7 / 10, fun v => decide (v > 110)),
   (1 / 2, fun v => decide (v > 100)),
   (3 / 10, fun _ => true)]

/-- The raw (unclamped) sum of the seven per-metric contributions accumulated
by `compute_risk_score` before the final `min(score, 100.0)`. -/
def raw_total (row : HealthRow) : ℚ :=
  score_with_bands row.steps 20 stepsBands (1 / 2)
    + score_with_bands row.sleep_minutes 20 sleepBands (1 / 2)
    + score_with_bands row.resting_hr 20 restingBands (1 / 2)
    + score_with_bands row.active_minutes 10 activeBands (1 / 2)
    + score_with_bands row.hrv_sdnn 15 hrvBands (1 / 2)
    + score_with_bands row.vo2max 10 vo2Bands (1 / 2)
    + score_with_bands row.walking_hr_avg 5 walkingBands (1 / 2)

/-- `compute_risk_score(row)`: the banded contributions summed and clamped to
at most 100. -/
def compute_risk_score (row : HealthRow) : ℚ :=
  min (raw_total row) 100

/-- `categorize_risk_level(score)`: ordered threshold match over the final
score. -/
def categorize_risk_level (score : ℚ) : String :=
  if score ≥ 70 then "high"
  else if score ≥ 45 then "medium"
  else "low"

/-- Rank of a risk level under the ordering low < medium < high, used to state
monotonicity of the level in the score. -/
def levelRank (level : String) : Nat :=
  if level = "high" then 2 else if level = "medium" then 1 else 0

/-- The record with every scored field missing. -/
def allMissingRow : HealthRow :=
  ⟨none, none, none, none, none, none, none⟩

/-- The scenario record `steps=2000, sleep_minutes=300, resting_hr=90`, all
other fields missing. -/
def scenarioRow : HealthRow :=
  ⟨some 2000, some 300, some 90, none, none, none, none⟩

/-! ## Apple Health ingestion (`src/ingest_apple.py`, `build_daily_metrics`) -/

/-- One parsed `Record` element of a quantity type: the calendar day of its
`startDate` and its `value` after `pd.to_numeric(..., errors="coerce")`
(`none` when the raw value fails numeric parsing). -/
structure QuantSample where
  day : Nat
  value : Option ℚ
deriving DecidableEq

/-- One parsed `SleepAnalysis` record: the calendar day of `startDate`, the
two timestamps in seconds, and the categorical `value` string (`none` when the
attribute is absent). -/
structure SleepSample where
  day : Nat
  startTs : ℚ
  endTs : ℚ
  value : Option String
deriving DecidableEq

/-- The dictionary of per-type DataFrames produced by `parse_apple_records`;
an empty list stands for a type with no records (absent key / empty frame). -/
structure AppleDfs where
  stepCount : List QuantSample
  distanceWalkingRunning : List QuantSample
  activeEnergyBurned : List QuantSample
  exerciseTime : List QuantSample
  restingHeartRate : List QuantSample
  vo2Max : List QuantSample
  walkingHeartRateAverage : List QuantSample
  heartRateVariabilitySDNN : List QuantSample
  sleepAnalysis : List SleepSample

/-- The pandas reduction `Series.sum()` with `skipna` semantics: `NaN` entries
are dropped; the sum of an all-`NaN` (or empty) collection is `0`. -/
def pandasSum (vs : List (Option ℚ)) : ℚ :=
  (vs.filterMap id).sum

/-- The pandas reduction `Series.mean()` with `skipna` semantics: `NaN`
entries are dropped; the mean of an all-`NaN` (or empty) collection is `NaN`. -/
def pandasMean (vs : List (Option ℚ)) : Option ℚ :=
  if (vs.filterMap id) = [] then none
  else some ((vs.filterMap id).sum / (vs.filterMap id).length)

/-- `df.groupby("date")[col].sum()` aligned into the daily frame: `none` when
the frame for the metric is empty (column never written) or the day has no samples
for this metric (index alignment leaves `NaN`). -/
def sumAgg (samples : List QuantSample) (d : Nat) : Option ℚ :=
  if samples = [] then none
  else if samples.filter (fun s => s.day == d) = [] then none
  else some (pandasSum ((samples.filter (fun s => s.day == d)).map QuantSample.value))

/-- `df.groupby("date")[col].mean()` aligned into the daily frame, analogous
to `sumAgg`. -/
def meanAgg (samples : List QuantSample) (d : Nat) : Option ℚ :=
  if samples = [] then none
  else if samples.filter (fun s => s.day == d) = [] then none
  else pandasMean ((samples.filter (fun s => s.day == d)).map QuantSample.value)

/-- `duration_minutes = (endDate - startDate).total_seconds() / 60.0`. -/
def duration_minutes (s : SleepSample) : ℚ :=
  (s.endTs - s.startTs) / 60

/-- Case-sensitive check that `needle` occurs as a contiguous substring. -/
def containsSub (needle : List Char) : List Char → Bool
  | [] => needle.isEmpty
  | c :: rest => needle.isPrefixOf (c :: rest) || containsSub needle rest

/-- `is_asleep(v)`: `False` for a missing value, otherwise the case-sensitive
Python substring test `"Asleep" in v`. -/
def is_asleep (v : Option String) : Bool :=
  match v with
  | none => false
  | some s => containsSub "Asleep".toList s.toList

/-- Daily `sleep_minutes`: keep samples whose value passes `is_asleep`, group
the kept samples by the day of `startDate`, and sum `duration_minutes`;
`none` when the sleep frame is empty or the day has no kept sample. -/
def sleepAgg (samples : List SleepSample) (d : Nat) : Option ℚ :=
  if samples = [] then none
  else if (samples.filter (fun s => is_asleep s.value)).filter (fun s => s.day == d) = [] then none
  else some ((((samples.filter (fun s => is_asleep s.value)).filter
      (fun s => s.day == d)).map duration_minutes).sum)

/-- One output row of the Apple daily frame. -/
structure AppleDaily where
  date : Nat
  steps : Option ℚ
  distance_km : Option ℚ
  active_energy_kcal : Option ℚ
  active_minutes : Option ℚ
  resting_hr : Option ℚ
  vo2max : Option ℚ
  walking_hr_avg : Option ℚ
  hrv_sdnn : Option ℚ
  sleep_minutes : Option ℚ

/-- The Apple daily row for day `d`: sums for cumulative metrics, means for
instantaneous ones, and the filtered sleep reduction. -/
def appleDailyRow (dfs : AppleDfs) (d : Nat) : AppleDaily :=
  { date := d
    steps := sumAgg dfs.stepCount d
    distance_km := sumAgg dfs.distanceWalkingRunning d
    active_energy_kcal := sumAgg dfs.activeEnergyBurned d
    active_minutes := sumAgg dfs.exerciseTime d
    resting_hr := meanAgg dfs.restingHeartRate d
    vo2max := meanAgg dfs.vo2Max d
    walking_hr_avg := meanAgg dfs.walkingHeartRateAverage d
    hrv_sdnn := meanAgg dfs.heartRateVariabilitySDNN d
    sleep_minutes := sleepAgg dfs.sleepAnalysis d }

/-- The union of the `startDate` days seen across all per-type frames (the
`date_index` set), before deduplication ordering. -/
def appleDates (dfs : AppleDfs) : List Nat :=
  (dfs.stepCount.map QuantSample.day
    ++ dfs.distanceWalkingRunning.map QuantSample.day
    ++ dfs.activeEnergyBurned.map QuantSample.day
    ++ dfs.exerciseTime.map QuantSample.day
    ++ dfs.restingHeartRate.map QuantSample.day
    ++ dfs.vo2Max.map QuantSample.day
    ++ dfs.walkingHeartRateAverage.map QuantSample.day
    ++ dfs.heartRateVariabilitySDNN.map QuantSample.day
    ++ dfs.sleepAnalysis.map SleepSample.day).dedup

/-- Apple `build_daily_metrics`: raises
`ValueError("No dates found in Apple Health records.")` when the date union is
empty, otherwise returns one row per distinct day, sorted. -/
def apple_build_daily_metrics (dfs : AppleDfs) : Except String (List AppleDaily) :=
  if appleDates dfs = [] then
    Except.error "No dates found in Apple Health records."
  else
    Except.ok (((appleDates dfs).insertionSort (· ≤ ·)).map (appleDailyRow dfs))

/-! ## Fitbit ingestion (`src/ingest_fitbit.py`, `build_daily_metrics`) -/

/-- A row of `dailySteps_merged.csv`: day of `ActivityDay` after coercion
(`none` for an unparseable date) and `StepTotal`. -/
structure FitStepsRow where
  day : Option Nat
  stepTotal : Option ℚ
deriving DecidableEq

/-- A row of `dailyActivity_merged.csv`: day of `ActivityDate`, the
`TotalSteps` column, the distance column (miles) and `Calories`.  A frame
loaded from this CSV carries the `TotalSteps` column, so the column-presence
test of the steps fallback holds whenever the frame is present. -/
structure FitActivityRow where
  day : Option Nat
  totalSteps : Option ℚ
  distance : Option ℚ
  calories : Option ℚ
deriving DecidableEq

/-- A row of `sleepDay_merged.csv`. -/
structure FitSleepRow where
  day : Option Nat
  totalMinutesAsleep : Option ℚ
deriving DecidableEq

/-- A row of `heartrate_seconds_merged.csv`. -/
structure FitHrRow where
  day : Option Nat
  value : Option ℚ
deriving DecidableEq

/-- The dictionary built by `load_fitbit_daily_data`; `none` stands for a
missing CSV file. -/
structure FitbitDfs where
  steps : Option (List FitStepsRow)
  activity : Option (List FitActivityRow)
  sleep : Option (List FitSleepRow)
  heart : Option (List FitHrRow)

/-- Rows of an optional frame (`None` and an empty frame both contribute no
rows). -/
def optRows {α : Type} (o : Option (List α)) : List α :=
  o.getD []

/-- `all_dates`: the union of parseable dates across the four frames
(`dropna` removes coercion failures). -/
def fitbitDates (dfs : FitbitDfs) : List Nat :=
  ((optRows dfs.steps).filterMap FitStepsRow.day
    ++ (optRows dfs.activity).filterMap FitActivityRow.day
    ++ (optRows dfs.sleep).filterMap FitSleepRow.day
    ++ (optRows dfs.heart).filterMap FitHrRow.day).dedup

/-- The miles-to-kilometers factor `1.60934` applied once to the summed daily
distance. -/
def milesToKm : ℚ := 160934 / 100000

/-- Daily raw distance in miles: the skipna sum of the distance-column entries of the day
 of `dailyActivity_merged.csv`. -/
def fitbitRawMiles (rows : List FitActivityRow) (d : Nat) : ℚ :=
  pandasSum ((rows.filter (fun r => r.day == some d)).map FitActivityRow.distance)

/-- Daily `distance_km`: `groupby("date")[dist_col].sum() * 1.60934` aligned
into the daily frame. -/
def fitbitDistanceKm (dfs : FitbitDfs) (d : Nat) : Option ℚ :=
  match dfs.activity with
  | none => none
  | some rows =>
    if rows = [] then none
    else if rows.filter (fun r => r.day == some d) = [] then none
    else some (fitbitRawMiles rows d * milesToKm)

/-- The `elif` fallback of the steps section: when the steps frame is missing
or empty, `daily["steps"]` is populated from the `TotalSteps` column of the
activity frame (`groupby("date")["TotalSteps"].sum()`); no column is written
when the activity frame is also missing.  For a present-but-empty activity
frame the fallback is modelled per-day as missing; at frame level that input
makes the program raise (see `fitbit_build_daily_metrics`). -/
def fitbitStepsFallback (activity : Option (List FitActivityRow)) (d : Nat) : Option ℚ :=
  match activity with
  | none => none
  | some rows =>
    if rows.filter (fun r => r.day == some d) = [] then none
    else some (pandasSum ((rows.filter (fun r => r.day == some d)).map FitActivityRow.totalSteps))

/-- Daily `steps`: sum of `StepTotal` when the steps frame is present and
non-empty, otherwise the `TotalSteps` fallback from the activity frame. -/
def fitbitSteps (dfs : FitbitDfs) (d : Nat) : Option ℚ :=
  match dfs.steps with
  | some rows =>
    if rows = [] then fitbitStepsFallback dfs.activity d
    else if rows.filter (fun r => r.day == some d) = [] then none
    else some (pandasSum ((rows.filter (fun r => r.day == some d)).map FitStepsRow.stepTotal))
  | none => fitbitStepsFallback dfs.activity d

/-- Daily `sleep_minutes`: sum of `TotalMinutesAsleep`. -/
def fitbitSleepMinutes (dfs : FitbitDfs) (d : Nat) : Option ℚ :=
  match dfs.sleep with
  | none => none
  | some rows =>
    if rows = [] then none
    else if rows.filter (fun r => r.day == some d) = [] then none
    else some (pandasSum ((rows.filter (fun r => r.day == some d)).map FitSleepRow.totalMinutesAsleep))

/-- Daily `resting_hr`: the minimum heart-rate reading of the day (skipna). -/
def fitbitRestingHr (dfs : FitbitDfs) (d : Nat) : Option ℚ :=
  match dfs.heart with
  | none => none
  | some rows =>
    if rows = [] then none
    else if rows.filter (fun r => r.day == some d) = [] then none
    else (((rows.filter (fun r => r.day == some d)).filterMap FitHrRow.value).min?)

/-- Daily `active_energy_kcal`: sum of `Calories`. -/
def fitbitCalories (dfs : FitbitDfs) (d : Nat) : Option ℚ :=
  match dfs.activity with
  | none => none
  | some rows =>
    if rows = [] then none
    else if rows.filter (fun r => r.day == some d) = [] then none
    else some (pandasSum ((rows.filter (fun r => r.day == some d)).map FitActivityRow.calories))

/-- One output row of the Fitbit daily frame. -/
structure FitbitDaily where
  date : Nat
  steps : Option ℚ
  distance_km : Option ℚ
  active_energy_kcal : Option ℚ
  sleep_minutes : Option ℚ
  resting_hr : Option ℚ

/-- The Fitbit daily row for day `d`. -/
def fitbitDailyRow (dfs : FitbitDfs) (d : Nat) : FitbitDaily :=
  { date := d
    steps := fitbitSteps dfs d
    distance_km := fitbitDistanceKm dfs d
    active_energy_kcal := fitbitCalories dfs d
    sleep_minutes := fitbitSleepMinutes dfs d
    resting_hr := fitbitRestingHr dfs d }

/-- Fitbit `build_daily_metrics`: when `all_dates` is empty it only warns and
returns an empty frame (no exception, before any per-metric section runs).
Otherwise, if the steps frame is missing or empty while the activity frame is
present but empty, the `TotalSteps` fallback groups a frame whose `date`
column was never created and the program raises a `KeyError`.  Otherwise one
row per distinct day, sorted. -/
def fitbit_build_daily_metrics (dfs : FitbitDfs) : Except String (List FitbitDaily) :=
  if fitbitDates dfs = [] then
    Except.ok []
  else if optRows dfs.steps = [] ∧ dfs.activity = some [] then
    Except.error "KeyError: date"
  else
    Except.ok (((fitbitDates dfs).insertionSort (· ≤ ·)).map (fitbitDailyRow dfs))

/-- An Apple input dictionary with no records at all. -/
def appleEmptyDfs : AppleDfs :=
  ⟨[], [], [], [], [], [], [], [], []⟩

/-- A Fitbit input dictionary with all four CSV files missing. -/
def fitbitEmptyDfs : FitbitDfs :=
  ⟨none, none, none, none⟩

/-- An Apple input whose only record is a step sample on day 0 with an
unparseable value. -/
def appleUnparseableSteps : AppleDfs :=
  ⟨[⟨0, none⟩], [], [], [], [], [], [], [], []⟩

/-- An Apple input whose only record is a resting-heart-rate sample on day 0
with an unparseable value. -/
def appleUnparseableHr : AppleDfs :=
  ⟨[], [], [], [], [⟨0, none⟩], [], [], [], []⟩

/-- A Fitbit input whose activity frame holds a single day with a raw
distance of 10.0 miles. -/
def fitbitTenMiles : FitbitDfs :=
  ⟨none, some [⟨some 0, none, some 10, none⟩], none, none⟩

/-- The record with `steps = 3000` and every other scored field missing. -/
def steps3000Row : HealthRow :=
  ⟨some 3000, none, none, none, none, none, none⟩

/-- The claim-side formulation of daily sleep minutes: over all samples, keep
those on day `d` whose categorical value contains `"Asleep"`, and sum their
durations in minutes. -/
def sleepMinutesOn (samples : List SleepSample) (d : Nat) : ℚ :=
  ((samples.filter (fun s => s.day == d && is_asleep s.value)).map duration_minutes).sum

/-! ## Helper lemmas -/

/-- Evaluates `score_with_bands` on a present value over a four-band list
whose last band always matches, as nested conditionals. -/
theorem score_with_bands_four (v : ℚ) (w f1 f2 f3 f4 m : ℚ)
    (p1 p2 p3 : ℚ → Bool) :
    score_with_bands (some v) w [(f1, p1), (f2, p2), (f3, p3), (f4, fun _ => true)] m =
      if p1 v then w * f1 else if p2 v then w * f2
      else if p3 v then w * f3 else w * f4 := by
  cases h1 : p1 v <;> cases h2 : p2 v <;> cases h3 : p3 v <;>
    simp [score_with_bands, List.find?, h1, h2, h3]

/-- A uniform lower bound on `score_with_bands` over a four-band list whose
last band always matches: any bound below all five possible contributions. -/
theorem score_with_bands_four_lb (v : Option ℚ) (w f1 f2 f3 f4 m c : ℚ)
    (p1 p2 p3 : ℚ → Bool)
    (h1 : c ≤ w * f1) (h2 : c ≤ w * f2) (h3 : c ≤ w * f3) (h4 : c ≤ w * f4)
    (h5 : c ≤ w * m) :
    c ≤ score_with_bands v w [(f1, p1), (f2, p2), (f3, p3), (f4, fun _ => true)] m := by
  cases v with
  | none => simpa [score_with_bands] using h5
  | some x =>
    rw [score_with_bands_four]
    split_ifs <;> assumption

/-- The raw contribution sum of every record is at least 23 (the sum of the least
possible per-metric contributions). -/
theorem raw_total_lb (row : HealthRow) : 23 ≤ raw_total row := by
  have hs : (4 : ℚ) ≤ score_with_bands row.steps 20 stepsBands (1 / 2) := by
    rw [stepsBands]
    exact score_with_bands_four_lb _ _ _ _ _ _ _ _ _ _ _
      (by norm_num) (by norm_num) (by norm_num) (by norm_num) (by norm_num)
  have hsl : (4 : ℚ) ≤ score_with_bands row.sleep_minutes 20 sleepBands (1 / 2) := by
    rw [sleepBands]
    exact score_with_bands_four_lb _ _ _ _ _ _ _ _ _ _ _
      (by norm_num) (by norm_num) (by norm_num) (by norm_num) (by norm_num)
  have hr : (4 : ℚ) ≤ score_with_bands row.resting_hr 20 restingBands (1 / 2) := by
    rw [restingBands]
    exact score_with_bands_four_lb _ _ _ _ _ _ _ _ _ _ _
      (by norm_num) (by norm_num) (by norm_num) (by norm_num) (by norm_num)
  have ha : (2 : ℚ) ≤ score_with_bands row.active_minutes 10 activeBands (1 / 2) := by
    rw [activeBands]
    exact score_with_bands_four_lb _ _ _ _ _ _ _ _ _ _ _
      (by norm_num) (by norm_num) (by norm_num) (by norm_num) (by norm_num)
  have hh : (9 / 2 : ℚ) ≤ score_with_bands row.hrv_sdnn 15 hrvBands (1 / 2) := by
    rw [hrvBands]
    exact score_with_bands_four_lb _ _ _ _ _ _ _ _ _ _ _
      (by norm_num) (by norm_num) (by norm_num) (by norm_num) (by norm_num)
  have hv : (3 : ℚ) ≤ score_with_bands row.vo2max 10 vo2Bands (1 / 2) := by
    rw [vo2Bands]
    exact score_with_bands_four_lb _ _ _ _ _ _ _ _ _ _ _
      (by norm_num) (by norm_num) (by norm_num) (by norm_num) (by norm_num)
  have hw : (3 / 2 : ℚ) ≤ score_with_bands row.walking_hr_avg 5 walkingBands (1 / 2) := by
    rw [walkingBands]
    exact score_with_bands_four_lb _ _ _ _ _ _ _ _ _ _ _
      (by norm_num) (by norm_num) (by norm_num) (by norm_num) (by norm_num)
  rw [raw_total]
  linarith

/-- Evaluation of `raw_total` on the all-missing record. -/
theorem raw_total_allMissing : raw_total allMissingRow = 50 := by
  simp only [raw_total, allMissingRow, score_with_bands]
  norm_num

/-- Evaluation of `compute_risk_score` on the all-missing record. -/
theorem compute_allMissing : compute_risk_score allMissingRow = 50 := by
  rw [compute_risk_score, raw_total_allMissing]
  norm_num [min_def]

/-- Evaluation of `compute_risk_score` on the scenario record. -/
theorem compute_scenario : compute_risk_score scenarioRow = 74 := by
  have h : raw_total scenarioRow = 74 := by
    simp only [raw_total, scenarioRow, stepsBands, sleepBands, restingBands,
      activeBands, hrvBands, vo2Bands, walkingBands, score_with_bands_four,
      score_with_bands]
    norm_num
  rw [compute_risk_score, h]
  norm_num [min_def]

/-- `levelRank` evaluated on the three level strings. -/
theorem levelRank_values :
    levelRank "high" = 2 ∧ levelRank "medium" = 1 ∧ levelRank "low" = 0 := by
  refine ⟨?_, ?_, ?_⟩ <;> simp [levelRank]

/-- `levelRank ∘ categorize_risk_level` as a numeric threshold function. -/
theorem levelRank_categorize (s : ℚ) :
    levelRank (categorize_risk_level s) =
      if s ≥ 70 then 2 else if s ≥ 45 then 1 else 0 := by
  rw [categorize_risk_level]
  split_ifs <;> simp [levelRank]

/-! ## Claims -/

/-- C1 — counterexample.  The claim says a missing metric contributes the
neutral value 0 and the all-missing record scores 0 with level `"low"`.  On
the code, a missing `steps` value contributes `20 * 0.5 = 10`, and the
all-missing record scores 50 with level `"medium"`. -/
theorem C1_counterexample :
    score_with_bands none 20 stepsBands (1 / 2) = 10 ∧
      compute_risk_score allMissingRow = 50 ∧
      0 < compute_risk_score allMissingRow ∧
      categorize_risk_level (compute_risk_score allMissingRow) = "medium" := by
  refine ⟨?_, compute_allMissing, ?_, ?_⟩
  · simp [score_with_bands]; norm_num
  · rw [compute_allMissing]; norm_num
  · rw [compute_allMissing, categorize_risk_level]; norm_num

/-- C1 — amended.  A missing metric value contributes `weight *
missing_penalty` with the default penalty `0.5` (equal to the catch-all
fraction), not 0; consequently a record with every scored field missing
yields risk score 50 and risk level `"medium"`. -/
theorem C1_missing_contribution :
    (∀ (w mp : ℚ) (bands : List (ℚ × (ℚ → Bool))),
        score_with_bands none w bands mp = w * mp) ∧
      score_with_bands none 20 stepsBands (1 / 2) = 20 * (1 / 2) ∧
      compute_risk_score allMissingRow = 50 ∧
      categorize_risk_level (compute_risk_score allMissingRow) = "medium" := by
  refine ⟨fun w mp bands => rfl, rfl, compute_allMissing, ?_⟩
  rw [compute_allMissing, categorize_risk_level]
  norm_num

/-- C2 — counterexample.  The claim maps every score `s` with `40 ≤ s < 70`
to `"medium"`; the code maps `42` (and `44`) to `"low"` because its medium
threshold is 45. -/
theorem C2_counterexample :
    categorize_risk_level 42 = "low" ∧
      categorize_risk_level 44 = "low" ∧
      categorize_risk_level 45 = "medium" := by
  refine ⟨?_, ?_, ?_⟩ <;> rw [categorize_risk_level] <;> norm_num

/-- C2 — amended.  The level assignment maps a final score `s` to `"high"`
when `s ≥ 70`, to `"medium"` when `45 ≤ s < 70`, and to `"low"` otherwise;
and for `s1 ≤ s2` the assigned level of `s1` is at most that of `s2` under
low < medium < high. -/
theorem C2_level_thresholds :
    (∀ s : ℚ, (70 ≤ s → categorize_risk_level s = "high") ∧
        (45 ≤ s → s < 70 → categorize_risk_level s = "medium") ∧
        (s < 45 → categorize_risk_level s = "low")) ∧
      ∀ s1 s2 : ℚ, s1 ≤ s2 →
        levelRank (categorize_risk_level s1) ≤ levelRank (categorize_risk_level s2) := by
  constructor
  · intro s
    refine ⟨?_, ?_, ?_⟩ <;> intros <;> rw [categorize_risk_level] <;>
      split_ifs <;> first | rfl | linarith
  · intro s1 s2 hle
    rw [levelRank_categorize, levelRank_categorize]
    split_ifs <;> first | (exfalso; linarith) | norm_num

/-- C2 — witness: the amended theorem applied at the concrete scores 80, 50,
10 and at the pair 30 ≤ 50. -/
theorem C2_level_thresholds_witness :
    categorize_risk_level 80 = "high" ∧
      categorize_risk_level 50 = "medium" ∧
      categorize_risk_level 10 = "low" ∧
      levelRank (categorize_risk_level 30) ≤ levelRank (categorize_risk_level 50) :=
  ⟨(C2_level_thresholds.1 80).1 (by norm_num),
    (C2_level_thresholds.1 50).2.1 (by norm_num) (by norm_num),
    (C2_level_thresholds.1 10).2.2 (by norm_num),
    C2_level_thresholds.2 30 50 (by norm_num)⟩

/-- C3 — confirmed.  The risk score is the raw contribution sum clamped to at
most 100 (saturating truncation, not rescaling): it always lies in
`[0, 100]`, and equals the raw sum whenever that sum is at most 100. -/
theorem C3_score_clamped (row : HealthRow) :
    compute_risk_score row = min (raw_total row) 100 ∧
      0 ≤ compute_risk_score row ∧
      compute_risk_score row ≤ 100 ∧
      (raw_total row ≤ 100 → compute_risk_score row = raw_total row) := by
  have hlb := raw_total_lb row
  refine ⟨rfl, ?_, ?_, ?_⟩
  · rw [compute_risk_score]
    exact le_min (by linarith) (by norm_num)
  · rw [compute_risk_score]
    exact min_le_right _ _
  · intro h
    rw [compute_risk_score]
    exact min_eq_left h

/-- C3 — witness: the theorem applied at the all-missing record, whose raw
sum 50 is below the clamp. -/
theorem C3_score_clamped_witness :
    compute_risk_score allMissingRow = raw_total allMissingRow :=
  (C3_score_clamped allMissingRow).2.2.2 (by rw [raw_total_allMissing]; norm_num)

/-- C5 — counterexample.  The claim predicts risk score 90 for the scenario
record `steps=2000, sleep_minutes=300, resting_hr=90`; the code returns 74
(`resting_hr = 90` is not `> 90`, so it contributes `0.7·20 = 14`, and each
of the four missing metrics contributes half its weight). -/
theorem C5_counterexample :
    compute_risk_score scenarioRow = 74 ∧ compute_risk_score scenarioRow < 90 := by
  refine ⟨compute_scenario, ?_⟩
  rw [compute_scenario]
  norm_num

/-- C5 — amended.  The scenario record scores `20 + 20 + 14` from the present
metrics plus `5 + 7.5 + 5 + 2.5 = 20` from the missing ones, total 74, and
its level is `"high"`. -/
theorem C5_scenario :
    score_with_bands (some 2000) 20 stepsBands (1 / 2) = 20 ∧
      score_with_bands (some 300) 20 sleepBands (1 / 2) = 20 ∧
      score_with_bands (some 90) 20 restingBands (1 / 2) = 14 ∧
      compute_risk_score scenarioRow = 74 ∧
      categorize_risk_level (compute_risk_score scenarioRow) = "high" := by
  refine ⟨?_, ?_, ?_, compute_scenario, ?_⟩
  · rw [stepsBands, score_with_bands_four]; norm_num
  · rw [sleepBands, score_with_bands_four]; norm_num
  · rw [restingBands, score_with_bands_four]; norm_num
  · rw [compute_scenario, categorize_risk_level]; norm_num

/-- C9 — confirmed.  `steps == 3000` does not match the `< 3000` band
(strict-less-than at the boundary) and falls to the `< 6000` band, so its
contribution is `0.7 · 20 = 14`, not the `20` of the first band; on a record with
only `steps = 3000` the total is `14 + 40 = 54`. -/
theorem C9_boundary :
    score_with_bands (some 3000) 20 stepsBands (1 / 2) = 20 * (7 / 10) ∧
      score_with_bands (some 3000) 20 stepsBands (1 / 2) = 14 ∧
      score_with_bands (some 3000) 20 stepsBands (1 / 2) < 20 * 1 ∧
      compute_risk_score steps3000Row = 54 := by
  have h : score_with_bands (some 3000) 20 stepsBands (1 / 2) = 14 := by
    rw [stepsBands, score_with_bands_four]; norm_num
  have hc : compute_risk_score steps3000Row = 54 := by
    have hr : raw_total steps3000Row = 54 := by
      simp only [raw_total, steps3000Row, stepsBands, sleepBands, restingBands,
        activeBands, hrvBands, vo2Bands, walkingBands, score_with_bands_four,
        score_with_bands]
      norm_num
    rw [compute_risk_score, hr]
    norm_num [min_def]
  refine ⟨by rw [h]; norm_num, h, by rw [h]; norm_num, hc⟩

/-- C4 — counterexample.  The claim says both builders fail with a
`NoDataError` when the union of dates is empty.  The Fitbit builder, fed the
input with all four CSV files missing (so an empty date union), returns an
empty-but-valid frame instead of failing. -/
theorem C4_counterexample :
    fitbitDates fitbitEmptyDfs = [] ∧
      fitbit_build_daily_metrics fitbitEmptyDfs = Except.ok [] := by
  constructor <;> rfl

/-- C4 — amended.  On an empty date union the Apple builder raises
`ValueError("No dates found in Apple Health records.")` surfaced to the
caller, while the Fitbit builder only warns and returns an empty frame. -/
theorem C4_empty_dates (a : AppleDfs) (f : FitbitDfs) :
    (appleDates a = [] →
        apple_build_daily_metrics a =
          Except.error "No dates found in Apple Health records.") ∧
      (fitbitDates f = [] → fitbit_build_daily_metrics f = Except.ok []) := by
  constructor
  · intro h
    rw [apple_build_daily_metrics, if_pos h]
  · intro h
    rw [fitbit_build_daily_metrics, if_pos h]

/-- C4 — witness: the amended theorem applied to the all-empty Apple input
and the all-missing Fitbit input. -/
theorem C4_empty_dates_witness :
    apple_build_daily_metrics appleEmptyDfs =
        Except.error "No dates found in Apple Health records." ∧
      fitbit_build_daily_metrics fitbitEmptyDfs = Except.ok [] :=
  ⟨(C4_empty_dates appleEmptyDfs fitbitEmptyDfs).1 (by rfl),
    (C4_empty_dates appleEmptyDfs fitbitEmptyDfs).2 (by rfl)⟩

/-- C6 — counterexample.  The claim says a day whose samples for a metric are
all unparseable does not receive the value 0.  For the step-count metric, a
day with a single unparseable sample receives `0` (pandas sums an all-`NaN`
group to 0), not a missing value. -/
theorem C6_counterexample :
    (appleDailyRow appleUnparseableSteps 0).steps = some 0 := by
  rfl

/-- C6 — amended.  A raw value failing numeric parsing contributes neither a
value nor an error to the reductions (dropping it leaves every sum and mean
unchanged); a day whose samples are all unparseable yields a missing value
for mean-aggregated metrics such as `resting_hr`, but yields 0 for
sum-aggregated metrics such as `steps`. -/
theorem C6_unparseable (vs : List (Option ℚ)) :
    pandasSum (none :: vs) = pandasSum vs ∧
      pandasMean (none :: vs) = pandasMean vs ∧
      (appleDailyRow appleUnparseableHr 0).resting_hr = none ∧
      (appleDailyRow appleUnparseableSteps 0).steps = some 0 := by
  refine ⟨?_, ?_, ?_, ?_⟩
  · simp [pandasSum]
  · simp [pandasMean]
  · rfl
  · rfl

/-- C7 — confirmed.  Daily `sleep_minutes` keeps exactly the samples whose
categorical value contains the case-sensitive substring `"Asleep"`
(`"InBedAwake"` and the lowercase `"asleep"` are excluded, the Apple
values ending in AsleepDeep and similar are kept), takes `(endDate − startDate)` in minutes
per kept sample, and sums them per calendar day of `startDate`; a day with no
kept sample stays missing. -/
theorem C7_sleep_minutes :
    is_asleep (some "InBedAwake") = false ∧
      is_asleep (some "Asleep") = true ∧
      is_asleep (some "HKCategoryValueSleepAnalysisAsleepDeep") = true ∧
      is_asleep (some "asleep") = false ∧
      is_asleep none = false ∧
      (∀ s : SleepSample, duration_minutes s = (s.endTs - s.startTs) / 60) ∧
      ∀ (samples : List SleepSample) (d : Nat),
        sleepAgg samples d = some (sleepMinutesOn samples d) ∨
          (sleepAgg samples d = none ∧ sleepMinutesOn samples d = 0) := by
  refine ⟨by decide, by decide, by decide, by decide, rfl, fun s => rfl, ?_⟩
  intro samples d
  rw [sleepAgg, sleepMinutesOn]
  simp only [List.filter_filter]
  split_ifs with h1 h2
  · right
    subst h1
    simp
  · right
    rw [h2]
    simp
  · left
    rfl

/-- C8 — confirmed.  Fitbit distance values in miles are converted to
kilometers by the single factor 1.60934 applied to the summed daily distance
(the Apple path stores the plain sum with no conversion), and a raw daily
distance of 10.0 miles yields exactly `16.0934` km. -/
theorem C8_distance_conversion :
    milesToKm = 160934 / 100000 ∧
      (∀ (dfs : FitbitDfs) (d : Nat),
        fitbitDistanceKm dfs d = none ∨
          fitbitDistanceKm dfs d =
            some (fitbitRawMiles (optRows dfs.activity) d * milesToKm)) ∧
      fitbitDistanceKm fitbitTenMiles 0 = some (16.0934 : ℚ) ∧
      |(160934 : ℚ) / 10000 - 16.0934| < 1 / 1000000 ∧
      ∀ (dfs : AppleDfs) (d : Nat),
        (appleDailyRow dfs d).distance_km = sumAgg dfs.distanceWalkingRunning d := by
  refine ⟨rfl, ?_, ?_, by norm_num, fun dfs d => rfl⟩
  · intro dfs d
    cases h : dfs.activity with
    | none => left; simp [fitbitDistanceKm, h]
    | some rows =>
      simp only [fitbitDistanceKm, h, optRows, Option.getD_some]
      split_ifs
      · left; rfl
      · left; rfl
      · right; rfl
  · have h : fitbitRawMiles [⟨some 0, none, some 10, none⟩] 0 * milesToKm = (16.0934 : ℚ) := by
      rw [fitbitRawMiles, milesToKm]
      simp [pandasSum]
      norm_num
    simp only [fitbitDistanceKm, fitbitTenMiles]
    rw [if_neg (by simp), if_neg (by simp)]
    exact congrArg some h

/-- C10 — confirmed.  Every record scores at least 23: the least
band fraction of each metric times its weight gives `4 + 4 + 4 + 2 + 4.5 + 3 + 1.5 = 23`,
and a missing metric contributes half its weight, which is never less.  In
particular the score 0 is never produced. -/
theorem C10_lower_bound (row : HealthRow) :
    23 ≤ compute_risk_score row ∧ 0 < compute_risk_score row := by
  have h : (23 : ℚ) ≤ compute_risk_score row := by
    rw [compute_risk_score]
    exact le_min (raw_total_lb row) (by norm_num)
  exact ⟨h, by linarith⟩

end HealthRisk
